import Mathlib

/-!
Shallow embedding of the "flooded" A417 status system.

The repository has three algorithmic parts:
* `site/src/logic.ts` — trend and flood-status classifiers plus the
  road-assessment reconciler (`determineTrend`, `determineFloodStatus`,
  `findTimeWaterDroppedBelowFlood`, `assessRoadStatus`);
* the route-check worker (`checkRoute`, `findClosestDistance`,
  `haversineM`) classifying a routing-engine response;
* the traffic worker (`fetchMapbox` per-poll classification and
  `aggregateReadings` window aggregation).

Modelling conventions: JavaScript numbers are modelled as `ℚ` (the claims
are about threshold comparisons and exact arithmetic on decimal constants);
ISO date strings that the code immediately converts with
`new Date(s).getTime()` are modelled as `Int` epoch milliseconds;
`Date.now()` is an explicit `now : Int` argument on the functions whose
source calls it; `JSON.stringify` of an opaque geometry value is modelled
by carrying the geometry as an opaque `String`. `Math.round` is JS
rounding (half towards positive infinity). The haversine distance is a
transcendental function of the coordinates; the classification logic is
stated for an arbitrary distance function `haversineM`, exactly as the
source composes it.
-/

namespace Flooded

/-! ## site/src/types.ts -/

-- Threshold constants from `site/src/types.ts` (Sandhurst gauge, metres).
namespace THRESHOLDS

def ROAD_FLOOD : ℚ := 3.98

def FLOOD_WARNING : ℚ := 3.90

def NORMAL_HIGH : ℚ := 3.00

def STATION_ID : String := "2618"

def FLOOD_AREA_ID : String := "031FWBSE570"

end THRESHOLDS

/-- One river-gauge reading; `dateTime` is epoch milliseconds. -/
structure EAReading where
  dateTime : Int
  value : ℚ
deriving DecidableEq

/-- The `FloodStatus` union type. -/
inductive FloodStatus
  | FLOODED
  | NEAR_FLOOD
  | RECEDING
  | CLEAR
  | UNKNOWN
deriving DecidableEq

/-- The `TrendDirection` union type. -/
inductive TrendDirection
  | RISING
  | FALLING
  | STEADY
  | UNKNOWN
deriving DecidableEq

/-- The `RouteStatus` union type. -/
inductive RouteStatus
  | ROUTING_THROUGH
  | ROUTING_AROUND
  | NO_ROUTE
  | ERROR
deriving DecidableEq

/-- The status field of the site-side `TrafficResponse`. -/
inductive TrafficStatus
  | LIVE_DATA
  | NO_LIVE_DATA
  | ERROR
deriving DecidableEq

/-- The `window` object inside a `TrafficResponse`. -/
structure TrafficWindow where
  description : String
  since : Option String
  readings : Nat
  readingsWithLiveData : Nat
deriving DecidableEq

/-- The site-side `TrafficResponse` interface from `types.ts`. -/
structure TrafficResponse where
  timestamp : String
  location : String
  status : TrafficStatus
  window : TrafficWindow
  averageSpeedMph : Option ℚ
  mostRecentLiveSpeedMph : Option ℚ
  mostRecentLiveTimestamp : Option String
deriving DecidableEq

/-- Confidence tier of a road assessment. -/
inductive Confidence
  | HIGH
  | MEDIUM
  | LOW
deriving DecidableEq

/-- The `RoadAssessment` interface: `isOpen = none` models the `null`
(uncertain) verdict. -/
structure RoadAssessment where
  isOpen : Option Bool
  confidence : Confidence
  reason : String
deriving DecidableEq

/-! ## site/src/logic.ts -/

/-- Seven days in milliseconds, the recency window
`7 * 24 * 60 * 60 * 1000` of `logic.ts`. -/
def sevenDaysMs : Int := 7 * 24 * 60 * 60 * 1000

/-- JavaScript `xs.slice(-n)`: the trailing `n` elements (all of `xs` when
it is shorter). -/
def takeLast (n : Nat) (xs : List α) : List α := xs.drop (xs.length - n)

/-- Placeholder reading used to express the (guarded) JS index accesses
`recent[0]` and `recent[recent.length - 1]`. -/
def defaultReading : EAReading := ⟨0, 0⟩

/-- `determineTrend` from `logic.ts` lines 10-23. -/
def determineTrend (readings : List EAReading) : TrendDirection :=
  if readings.length < 4 then .UNKNOWN
  else
    let recent := takeLast 8 readings
    if recent.length < 2 then .UNKNOWN
    else
      let first := (recent.headD defaultReading).value
      let last := (recent.getLastD defaultReading).value
      let diff := last - first
      if |diff| < 0.02 then .STEADY
      else if 0 < diff then .RISING
      else .FALLING

/-- `determineFloodStatus` from `logic.ts` lines 25-44. The source calls
`Date.now()`; that ambient clock value is the explicit argument `now`. -/
def determineFloodStatus (now : Int) (currentLevel : Option ℚ)
    (readings : List EAReading) : FloodStatus :=
  match currentLevel with
  | none => .UNKNOWN
  | some level =>
    if THRESHOLDS.ROAD_FLOOD - 0.05 ≤ level then .FLOODED
    else if THRESHOLDS.FLOOD_WARNING - 0.05 ≤ level then .NEAR_FLOOD
    else
      let sevenDaysAgo := now - sevenDaysMs
      let recentFlood := readings.any fun r =>
        decide (THRESHOLDS.ROAD_FLOOD ≤ r.value) && decide (sevenDaysAgo < r.dateTime)
      if recentFlood && decide (THRESHOLDS.NORMAL_HIGH < level) then .RECEDING
      else .CLEAR

/-- Downward index loop of `findTimeWaterDroppedBelowFlood`: the argument is
one past the index currently examined. -/
def findTimeAux (readings : List EAReading) : Nat → Option Int
  | 0 => none
  | i + 1 =>
    match readings.get? i with
    | some r =>
      if THRESHOLDS.ROAD_FLOOD ≤ r.value then
        match readings.get? (i + 1) with
        | some next => some next.dateTime
        | none => some r.dateTime
      else findTimeAux readings i
    | none => findTimeAux readings i

/-- `findTimeWaterDroppedBelowFlood` from `logic.ts` lines 65-79. -/
def findTimeWaterDroppedBelowFlood (readings : List EAReading) : Option Int :=
  findTimeAux readings readings.length

/-- JS truthiness of
`trafficSinceFlood && trafficSinceFlood.window.readingsWithLiveData > 0`. -/
def liveSinceFloodPos (trafficSinceFlood : Option TrafficResponse) : Bool :=
  match trafficSinceFlood with
  | some t => decide (0 < t.window.readingsWithLiveData)
  | none => false

/-- JS truthiness of
`trafficSinceFlood && trafficSinceFlood.window.readingsWithLiveData === 0`. -/
def liveSinceFloodZero (trafficSinceFlood : Option TrafficResponse) : Bool :=
  match trafficSinceFlood with
  | some t => decide (t.window.readingsWithLiveData = 0)
  | none => false

/-- `assessRoadStatus` from `logic.ts` lines 87-201, with the source's
early-return chain written as nested conditionals. The third argument is
the unused `_trafficData` parameter of the source. Note the final block
(commented `// CLEAR status` in the source) is reached by both `CLEAR`
and `UNKNOWN` flood statuses. -/
def assessRoadStatus (floodStatus : FloodStatus) (routeStatus : Option RouteStatus)
    (_trafficData : Option TrafficResponse) (trafficSinceFlood : Option TrafficResponse) :
    RoadAssessment :=
  if floodStatus = .FLOODED then
    ⟨some false, .HIGH, "Water levels are above the road flooding threshold."⟩
  else if floodStatus = .NEAR_FLOOD then
    if routeStatus = some .ROUTING_AROUND ∨ routeStatus = some .NO_ROUTE then
      ⟨some false, .MEDIUM,
        "Water levels are near the road flooding threshold and the route planner is directing traffic around this road. The road may be impassable. Note that the route planner can sometimes be wrong."⟩
    else
      ⟨some true, .MEDIUM,
        "Water levels are near the road flooding threshold but the road is likely still passable. Conditions may deteriorate — drive with caution."⟩
  else if floodStatus = .RECEDING then
    if liveSinceFloodPos trafficSinceFlood then
      ⟨some true, .HIGH,
        "Cars have been detected on the road since water levels dropped. The road appears to be open."⟩
    else if routeStatus = some .ROUTING_THROUGH then
      if liveSinceFloodZero trafficSinceFlood then
        ⟨some true, .MEDIUM,
          "The route planner is directing traffic through this road, but no cars have been detected yet. The traffic sensor can be unreliable, so the road is probably open."⟩
      else
        ⟨some true, .MEDIUM,
          "The route planner is directing traffic through this road. However, the route planner occasionally shows the road as open prematurely."⟩
    else if routeStatus = some .ROUTING_AROUND ∨ routeStatus = some .NO_ROUTE then
      ⟨some false, .MEDIUM,
        "Water levels have dropped, but the route planner is still directing traffic around this road. The road may still be closed or obstructed. Note that the route planner sometimes shows the road as closed when it has reopened."⟩
    else
      ⟨none, .LOW,
        "Water levels have dropped below the flood threshold recently. We can't confirm whether the road has reopened yet."⟩
  else
    if routeStatus = some .ROUTING_THROUGH then
      ⟨some true, .HIGH, "Water levels are normal and traffic is routing through."⟩
    else if routeStatus = some .ROUTING_AROUND then
      ⟨some false, .MEDIUM,
        "Water levels are normal, but the route planner is directing traffic around this road. There may be a closure for other reasons. The route planner can sometimes be wrong."⟩
    else
      ⟨some true, .LOW, "Water levels are within normal range."⟩

/-- The ambient state a site classifier could read besides its arguments:
the wall clock (`Date.now()`). -/
structure Ambient where
  now : Int

/-- `determineTrend` run in ambient world `w`; its source reads no ambient
state, so the world is not consulted. -/
def determineTrendRun (_w : Ambient) (readings : List EAReading) : TrendDirection :=
  determineTrend readings

/-- `findTimeWaterDroppedBelowFlood` run in ambient world `w`; its source
reads no ambient state. -/
def findTimeWaterDroppedBelowFloodRun (_w : Ambient) (readings : List EAReading) :
    Option Int :=
  findTimeWaterDroppedBelowFlood readings

/-- `assessRoadStatus` run in ambient world `w`; its source reads no
ambient state. -/
def assessRoadStatusRun (_w : Ambient) (floodStatus : FloodStatus)
    (routeStatus : Option RouteStatus) (trafficData : Option TrafficResponse)
    (trafficSinceFlood : Option TrafficResponse) : RoadAssessment :=
  assessRoadStatus floodStatus routeStatus trafficData trafficSinceFlood

/-- `determineFloodStatus` run in ambient world `w`: its source calls
`Date.now()`, modelled as reading `w.now`. -/
def determineFloodStatusRun (w : Ambient) (currentLevel : Option ℚ)
    (readings : List EAReading) : FloodStatus :=
  determineFloodStatus w.now currentLevel readings

/-! ## Route-check worker (TomTom) -/

/-- A latitude/longitude pair, the worker's `LatLng`. -/
structure LatLng where
  lat : ℚ
  lng : ℚ
deriving DecidableEq

/-- One vertex of a returned route polyline. -/
structure TomTomPoint where
  latitude : ℚ
  longitude : ℚ
deriving DecidableEq

/-- The `summary` object of a TomTom route. -/
structure TomTomSummary where
  lengthInMeters : ℚ
  travelTimeInSeconds : ℚ
  trafficDelayInSeconds : ℚ
deriving DecidableEq

/-- One leg of a TomTom route. -/
structure TomTomLeg where
  points : List TomTomPoint
deriving DecidableEq

/-- A TomTom route: summary plus legs. -/
structure TomTomRoute where
  summary : TomTomSummary
  legs : List TomTomLeg
deriving DecidableEq

def DIRECT_DISTANCE_M : ℚ := 1800

def DETOUR_THRESHOLD_MULTIPLIER : ℚ := 2.5

def MIDPOINT_PROXIMITY_M : ℚ := 150

/-- Midpoint of the watched A417 stretch. -/
def A417_MIDPOINT : LatLng := ⟨51.8840967853921, -2.2672132659056956⟩

/-- `findClosestDistance` from the route worker: minimum distance from any
route point to the target, starting from `Infinity` (modelled as `⊤` in
`WithTop ℚ`). The haversine distance function is passed explicitly. -/
def findClosestDistance (haversineM : TomTomPoint → LatLng → ℚ)
    (routePoints : List TomTomPoint) (target : LatLng) : WithTop ℚ :=
  routePoints.foldl
    (fun minDist point =>
      if (haversineM point target : WithTop ℚ) < minDist then
        (haversineM point target : WithTop ℚ)
      else minDist)
    ⊤

/-- The classification part of `checkRoute`: given the parsed routing
response (its `routes` array), produce the `RouteStatus` the worker
reports. Mirrors the worker source after the HTTP fetch. -/
def checkRoute (haversineM : TomTomPoint → LatLng → ℚ)
    (routes : List TomTomRoute) : RouteStatus :=
  match routes with
  | [] => .NO_ROUTE
  | route :: _ =>
    let routePoints := route.legs.flatMap fun leg => leg.points
    let distanceRatio := route.summary.lengthInMeters / DIRECT_DISTANCE_M
    let isShortRoute := distanceRatio < DETOUR_THRESHOLD_MULTIPLIER
    let closestToMidpoint := findClosestDistance haversineM routePoints A417_MIDPOINT
    let passesNearMidpoint := closestToMidpoint < (MIDPOINT_PROXIMITY_M : WithTop ℚ)
    if isShortRoute ∧ passesNearMidpoint then .ROUTING_THROUGH
    else .ROUTING_AROUND

/-! ## Traffic worker (Mapbox) -/

/-- Per-poll reading status of the traffic worker. -/
inductive ReadingStatus
  | NO_MATCH
  | NO_DATA
  | HAS_LIVE_DATA
  | NO_LIVE_DATA
  | ERROR
deriving DecidableEq

/-- Aggregated status returned by the traffic worker's fetch handler. -/
inductive AggregatedStatus
  | LIKELY_OPEN
  | NO_LIVE_DATA
  | INSUFFICIENT_DATA
deriving DecidableEq

/-- The optional per-leg annotation arrays of a Mapbox matching. -/
structure MapboxAnnotation where
  speed : Option (List ℚ)
  congestion : Option (List String)
  distance : Option (List ℚ)
deriving DecidableEq

/-- One leg of a Mapbox matching. -/
structure MapboxLeg where
  distance : ℚ
  duration : ℚ
  annotation : Option MapboxAnnotation
deriving DecidableEq

/-- One Mapbox matching; the GeoJSON geometry is carried as an opaque
serialized string. -/
structure MapboxMatching where
  distance : ℚ
  duration : ℚ
  confidence : ℚ
  geometry : String
  legs : List MapboxLeg
deriving DecidableEq

/-- The parsed Mapbox Map Matching response. -/
structure MapboxMatchResponse where
  code : String
  matchings : List MapboxMatching
deriving DecidableEq

/-- One entry of the `segments` array the worker builds. -/
structure Segment where
  speedMph : ℚ
  congestion : String
  distanceM : ℚ
deriving DecidableEq

/-- The worker's `MapboxResult`. -/
structure MapboxResult where
  status : ReadingStatus
  hasLiveData : Bool
  avgSpeedMph : Option ℚ
  confidence : Option ℚ
  geometryJson : Option String
  segmentsJson : Option (List Segment)
deriving DecidableEq

/-- JavaScript `Math.round`: round half towards positive infinity. -/
def jsRound (q : ℚ) : ℚ := (⌊q + 1 / 2⌋ : ℤ)

/-- `mpsToMph` from the traffic worker. -/
def mpsToMph (mps : ℚ) : ℚ := jsRound (mps * 2.23694 * 10) / 10

/-- The `allSpeeds` accumulation loop of `fetchMapbox`. -/
def collectSpeeds (legs : List MapboxLeg) : List ℚ :=
  legs.foldl
    (fun acc leg =>
      match leg.annotation with
      | some a =>
        match a.speed with
        | some s => acc ++ s
        | none => acc
      | none => acc)
    []

/-- The `allCongestion` accumulation loop of `fetchMapbox`. -/
def collectCongestion (legs : List MapboxLeg) : List String :=
  legs.foldl
    (fun acc leg =>
      match leg.annotation with
      | some a =>
        match a.congestion with
        | some c => acc ++ c
        | none => acc
      | none => acc)
    []

/-- The `allDistances` accumulation loop of `fetchMapbox`. -/
def collectDistances (legs : List MapboxLeg) : List ℚ :=
  legs.foldl
    (fun acc leg =>
      match leg.annotation with
      | some a =>
        match a.distance with
        | some d => acc ++ d
        | none => acc
      | none => acc)
    []

/-- The `liveSpeedsMph` accumulation inside the `allSpeeds.map` loop of
`fetchMapbox`: position `i` is the index of the head of the first list. -/
def liveSpeedsOf : List ℚ → Nat → List String → List ℚ
  | [], _, _ => []
  | s :: rest, i, allCongestion =>
    if allCongestion.getD i "unknown" ≠ "unknown" then
      mpsToMph s :: liveSpeedsOf rest (i + 1) allCongestion
    else liveSpeedsOf rest (i + 1) allCongestion

/-- The `segments` array built by the `allSpeeds.map` loop of `fetchMapbox`. -/
def segmentsOf : List ℚ → Nat → List String → List ℚ → List Segment
  | [], _, _, _ => []
  | s :: rest, i, allCongestion, allDistances =>
    ⟨mpsToMph s, allCongestion.getD i "unknown",
      jsRound (allDistances.getD i 0 * 10) / 10⟩ ::
      segmentsOf rest (i + 1) allCongestion allDistances

/-- The `NO_MATCH` result of `fetchMapbox`. -/
def noMatchResult : MapboxResult := ⟨.NO_MATCH, false, none, none, none, none⟩

/-- The classification part of `fetchMapbox`: given the parsed Mapbox
response, the worker's `MapboxResult`. Mirrors the source after the HTTP
fetch (`raw.code !== "Ok" || !raw.matchings?.length` → NO_MATCH). -/
def fetchMapbox (raw : MapboxMatchResponse) : MapboxResult :=
  if raw.code ≠ "Ok" then noMatchResult
  else
    match raw.matchings with
    | [] => noMatchResult
    | matching :: _ =>
      let allSpeeds := collectSpeeds matching.legs
      let allCongestion := collectCongestion matching.legs
      let allDistances := collectDistances matching.legs
      if allSpeeds = [] then
        ⟨.NO_DATA, false, none, some matching.confidence, some matching.geometry, none⟩
      else
        let hasLiveData := allCongestion.any fun c => c != "unknown"
        let liveSpeedsMph := liveSpeedsOf allSpeeds 0 allCongestion
        let segments := segmentsOf allSpeeds 0 allCongestion allDistances
        let avgSpeedMph : Option ℚ :=
          if 0 < liveSpeedsMph.length then
            some (liveSpeedsMph.sum / (liveSpeedsMph.length : ℚ))
          else none
        ⟨if hasLiveData then .HAS_LIVE_DATA else .NO_LIVE_DATA, hasLiveData,
          avgSpeedMph, some matching.confidence, some matching.geometry, some segments⟩

/-- One row of the `readings` D1 table as read back by the fetch handler. -/
structure ReadingRow where
  timestamp : String
  status : String
  has_live_data : Int
  avg_speed_mph : Option ℚ
  confidence : Option ℚ
  geometry_json : Option String
deriving DecidableEq

/-- The `window` object of the aggregated response. The live-data count is
absent (`none`) in the empty-window response, which omits the field. -/
structure AggWindow where
  description : String
  since : Option String
  readings : Nat
  readingsWithLiveData : Option Nat
deriving DecidableEq

/-- The aggregated response of the traffic worker's fetch handler (without
the ambient `timestamp` field). -/
structure AggregateResponse where
  location : String
  window : AggWindow
  status : AggregatedStatus
  averageSpeedMph : Option ℚ
  mostRecentLiveSpeedMph : Option ℚ
  mostRecentLiveTimestamp : Option String
  geometry : Option String
deriving DecidableEq

def AGGREGATION_WINDOW_MINUTES : Nat := 30

/-- The aggregation part of `aggregateReadings`: given the `since` query
parameter and the rows the D1 query returned (ordered newest first, as the
query orders by timestamp descending), the aggregated response. -/
def aggregateReadings (since : Option String) (readings : List ReadingRow) :
    AggregateResponse :=
  let windowLabel :=
    match since with
    | some s => "since " ++ s
    | none => "last " ++ toString AGGREGATION_WINDOW_MINUTES ++ " minutes"
  if readings.length = 0 then
    ⟨"A417 Maisemore – Over Roundabout", ⟨windowLabel, since, 0, none⟩,
      .INSUFFICIENT_DATA, none, none, none, none⟩
  else
    let liveReadings := readings.filter fun r => decide (r.has_live_data = 1)
    let anyLiveData := 0 < liveReadings.length
    let liveSpeeds :=
      (liveReadings.filter fun r => r.avg_speed_mph.isSome).filterMap
        fun r => r.avg_speed_mph
    let avgSpeed : Option ℚ :=
      if 0 < liveSpeeds.length then
        some (jsRound (liveSpeeds.sum / (liveSpeeds.length : ℚ) * 10) / 10)
      else none
    let mostRecentLive := liveReadings.find? fun r => r.avg_speed_mph.isSome
    let latestWithGeometry := readings.find? fun r => r.geometry_json.isSome
    let geometry : Option String :=
      match latestWithGeometry with
      | some r => r.geometry_json
      | none => none
    let status : AggregatedStatus := if anyLiveData then .LIKELY_OPEN else .NO_LIVE_DATA
    ⟨"A417 Maisemore – Over Roundabout",
      ⟨windowLabel, since, readings.length, some liveReadings.length⟩,
      status, avgSpeed,
      (match mostRecentLive with
       | some r => r.avg_speed_mph
       | none => none),
      mostRecentLive.map fun r => r.timestamp,
      geometry⟩

/-! ## Helper lemmas -/

/-- `List.any` is determined by the predicate's values on the members. -/
lemma any_congr_mem {α : Type} {p q : α → Bool} :
    ∀ {l : List α}, (∀ x ∈ l, p x = q x) → l.any p = l.any q := by
  intro l
  induction l with
  | nil => intro _; rfl
  | cons a l ih =>
    intro h
    simp only [List.any_cons, h a (List.mem_cons_self a l),
      ih fun x hx => h x (List.mem_cons_of_mem a hx)]

/-- `find?` after a `filter` is the head of the conjunctively filtered list. -/
lemma find?_filter_eq_head? {α : Type} (q p : α → Bool) :
    ∀ l : List α, (l.filter q).find? p = (l.filter fun a => q a && p a).head? := by
  intro l
  induction l with
  | nil => rfl
  | cons a l ih =>
    by_cases hq : q a
    · by_cases hp : p a
      · simp [List.filter_cons, hq, hp, List.find?_cons]
      · simp [List.filter_cons, hq, hp, List.find?_cons, ih]
    · simp [List.filter_cons, hq, ih]

/-- The running-minimum fold of `findClosestDistance` is below a finite
bound exactly when some route point is within that bound of the target. -/
lemma findClosestDistance_lt_iff (haversineM : TomTomPoint → LatLng → ℚ)
    (target : LatLng) (c : ℚ) (routePoints : List TomTomPoint) :
    findClosestDistance haversineM routePoints target < (c : WithTop ℚ) ↔
      ∃ p ∈ routePoints, haversineM p target < c := by
  have aux : ∀ (pts : List TomTomPoint) (acc : WithTop ℚ),
      List.foldl (fun minDist point =>
          if (haversineM point target : WithTop ℚ) < minDist then
            (haversineM point target : WithTop ℚ)
          else minDist) acc pts < (c : WithTop ℚ) ↔
        acc < (c : WithTop ℚ) ∨ ∃ p ∈ pts, haversineM p target < c := by
    intro pts
    induction pts with
    | nil => intro acc; simp
    | cons p ps ih =>
      intro acc
      rw [List.foldl_cons, ih]
      have hmin : (if (haversineM p target : WithTop ℚ) < acc then
          (haversineM p target : WithTop ℚ) else acc) =
          min (haversineM p target : WithTop ℚ) acc := by
        split_ifs with h
        · exact (min_eq_left h.le).symm
        · exact (min_eq_right (not_lt.mp h)).symm
      rw [hmin, min_lt_iff, WithTop.coe_lt_coe, List.exists_mem_cons_iff]
      tauto
  unfold findClosestDistance
  rw [aux]
  exact or_iff_right (not_top_lt)

/-- The live-speed accumulation keeps exactly the indexed speeds whose
congestion tag is not `"unknown"`. -/
lemma liveSpeedsOf_eq_filterMap (allCongestion : List String) :
    ∀ (speeds : List ℚ) (i : Nat),
      liveSpeedsOf speeds i allCongestion =
        (List.enumFrom i speeds).filterMap fun p =>
          if allCongestion.getD p.1 "unknown" ≠ "unknown" then
            some (mpsToMph p.2)
          else none := by
  intro speeds
  induction speeds with
  | nil => intro i; rfl
  | cons s rest ih =>
    intro i
    simp only [liveSpeedsOf, List.enumFrom_cons, List.filterMap_cons]
    by_cases hc : allCongestion.getD i "unknown" ≠ "unknown"
    · simp only [if_pos hc, ih (i + 1)]
    · simp only [if_neg hc, ih (i + 1)]

/-! ## Claim theorems -/

/-- C1: the reconciler's precedence rules. For every route status and both
traffic arguments, a `FLOODED` flood status yields a closed verdict with
HIGH confidence; and a `RECEDING` flood status with a traffic-since-flood
window reporting at least one live reading yields an open verdict with
HIGH confidence, regardless of the route status. -/
theorem C1_flood_and_live_traffic_dominate (routeStatus : Option RouteStatus)
    (trafficData trafficSinceFlood : Option TrafficResponse) (t : TrafficResponse)
    (hlive : 0 < t.window.readingsWithLiveData) :
    ((assessRoadStatus .FLOODED routeStatus trafficData trafficSinceFlood).isOpen =
        some false ∧
      (assessRoadStatus .FLOODED routeStatus trafficData trafficSinceFlood).confidence =
        .HIGH) ∧
    ((assessRoadStatus .RECEDING routeStatus trafficData (some t)).isOpen = some true ∧
      (assessRoadStatus .RECEDING routeStatus trafficData (some t)).confidence = .HIGH) := by
  have h : liveSinceFloodPos (some t) = true := by
    simp [liveSinceFloodPos, hlive]
  exact ⟨⟨rfl, rfl⟩, by simp [assessRoadStatus, h]⟩

/-- C1 witness: the theorem applied at a concrete traffic window with one
live reading. -/
theorem C1_flood_and_live_traffic_dominate_witness :
    (assessRoadStatus .RECEDING (some .ROUTING_AROUND) none
        (some ⟨"", "", .LIVE_DATA, ⟨"", none, 1, 1⟩, none, none, none⟩)).isOpen =
      some true := by
  exact (C1_flood_and_live_traffic_dominate (some .ROUTING_AROUND) none
    (some ⟨"", "", .LIVE_DATA, ⟨"", none, 1, 1⟩, none, none, none⟩)
    ⟨"", "", .LIVE_DATA, ⟨"", none, 1, 1⟩, none, none, none⟩ (by decide)).2.1

/-- C2: the claim says an `UNKNOWN` flood status must yield an uncertain
verdict (`isOpen = none`) with LOW confidence for every route status. The
code instead lets `UNKNOWN` fall into the block commented `// CLEAR
status`: at the failing input `floodStatus = UNKNOWN`,
`routeStatus = ROUTING_THROUGH` it answers open with HIGH confidence and a
reason claiming normal water levels, and even with no route status it
answers `isOpen = some true`, never `none`. -/
theorem C2_unknown_flood_status_falls_into_clear_branch :
    assessRoadStatus .UNKNOWN (some .ROUTING_THROUGH) none none =
      ⟨some true, .HIGH, "Water levels are normal and traffic is routing through."⟩ ∧
    (assessRoadStatus .UNKNOWN none none none).isOpen = some true ∧
    (assessRoadStatus .UNKNOWN none none none).confidence = .LOW :=
  ⟨rfl, rfl, rfl⟩

/-- C10: the verdict of `assessRoadStatus` does not depend on its third
argument (`_trafficData`): any two values of the live traffic window give
equal assessments. -/
theorem C10_trafficData_never_consulted (floodStatus : FloodStatus)
    (routeStatus : Option RouteStatus)
    (trafficData trafficData' trafficSinceFlood : Option TrafficResponse) :
    assessRoadStatus floodStatus routeStatus trafficData trafficSinceFlood =
      assessRoadStatus floodStatus routeStatus trafficData' trafficSinceFlood := rfl

/-- C3: `determineFloodStatus` is the top-down threshold ladder: `null`
current level gives `UNKNOWN`; a level at or above `ROAD_FLOOD - 0.05`
gives `FLOODED`; else at or above `FLOOD_WARNING - 0.05` gives
`NEAR_FLOOD`; else the result is `RECEDING` exactly when some reading
inside the trailing 7 days reached `ROAD_FLOOD` and the level is above
`NORMAL_HIGH`, and `CLEAR` otherwise — in particular `CLEAR` whenever
every reading inside the window is below `ROAD_FLOOD`, or the level is at
most `NORMAL_HIGH`. -/
theorem C3_determineFloodStatus_threshold_ladder (now : Int)
    (readings : List EAReading) :
    determineFloodStatus now none readings = .UNKNOWN ∧
    ∀ level : ℚ,
      (THRESHOLDS.ROAD_FLOOD - 0.05 ≤ level →
        determineFloodStatus now (some level) readings = .FLOODED) ∧
      (level < THRESHOLDS.ROAD_FLOOD - 0.05 →
        THRESHOLDS.FLOOD_WARNING - 0.05 ≤ level →
        determineFloodStatus now (some level) readings = .NEAR_FLOOD) ∧
      (level < THRESHOLDS.FLOOD_WARNING - 0.05 →
        (determineFloodStatus now (some level) readings = .RECEDING ↔
          (∃ r ∈ readings, THRESHOLDS.ROAD_FLOOD ≤ r.value ∧
              now - sevenDaysMs < r.dateTime) ∧
            THRESHOLDS.NORMAL_HIGH < level)) ∧
      (level < THRESHOLDS.FLOOD_WARNING - 0.05 →
        ((∀ r ∈ readings, now - sevenDaysMs < r.dateTime →
            r.value < THRESHOLDS.ROAD_FLOOD) ∨
          level ≤ THRESHOLDS.NORMAL_HIGH) →
        determineFloodStatus now (some level) readings = .CLEAR) := by
  refine ⟨rfl, fun level => ?_⟩
  have hcond : ∀ level : ℚ,
      ((readings.any fun r => decide (THRESHOLDS.ROAD_FLOOD ≤ r.value) &&
          decide (now - sevenDaysMs < r.dateTime)) &&
        decide (THRESHOLDS.NORMAL_HIGH < level)) = true ↔
      ((∃ r ∈ readings, THRESHOLDS.ROAD_FLOOD ≤ r.value ∧
          now - sevenDaysMs < r.dateTime) ∧ THRESHOLDS.NORMAL_HIGH < level) := by
    intro l
    simp [List.any_eq_true]
  have hfw_lt_rf : THRESHOLDS.FLOOD_WARNING - 0.05 < THRESHOLDS.ROAD_FLOOD - 0.05 := by
    norm_num [THRESHOLDS.FLOOD_WARNING, THRESHOLDS.ROAD_FLOOD]
  refine ⟨?_, ?_, ?_, ?_⟩
  · intro h1
    simp only [determineFloodStatus]
    rw [if_pos h1]
  · intro h1 h2
    simp only [determineFloodStatus]
    rw [if_neg (not_le.mpr h1), if_pos h2]
  · intro h2
    have h1 : level < THRESHOLDS.ROAD_FLOOD - 0.05 := lt_trans h2 hfw_lt_rf
    simp only [determineFloodStatus]
    rw [if_neg (not_le.mpr h1), if_neg (not_le.mpr h2)]
    by_cases hc :
        ((readings.any fun r => decide (THRESHOLDS.ROAD_FLOOD ≤ r.value) &&
            decide (now - sevenDaysMs < r.dateTime)) &&
          decide (THRESHOLDS.NORMAL_HIGH < level)) = true
    · rw [if_pos hc]
      exact iff_of_true rfl ((hcond level).mp hc)
    · rw [if_neg hc]
      exact iff_of_false (fun hx => FloodStatus.noConfusion hx)
        fun hr => hc ((hcond level).mpr hr)
  · intro h2 hd
    have h1 : level < THRESHOLDS.ROAD_FLOOD - 0.05 := lt_trans h2 hfw_lt_rf
    have hne : ¬ ((readings.any fun r => decide (THRESHOLDS.ROAD_FLOOD ≤ r.value) &&
          decide (now - sevenDaysMs < r.dateTime)) &&
        decide (THRESHOLDS.NORMAL_HIGH < level)) = true := by
      rw [hcond level]
      rintro ⟨⟨r, hr, hv, ht⟩, hl⟩
      cases hd with
      | inl hall => exact absurd hv (not_le.mpr (hall r hr ht))
      | inr hle => exact absurd hl (not_lt.mpr hle)
    simp only [determineFloodStatus]
    rw [if_neg (not_le.mpr h1), if_neg (not_le.mpr h2), if_neg hne]

/-- C3 witness: the ladder applied at concrete inputs — a 3.5 m level one
reading of 4 m inside the window gives `RECEDING`, and a 2.5 m level with
no readings gives `CLEAR`. -/
theorem C3_determineFloodStatus_threshold_ladder_witness :
    determineFloodStatus 0 (some 3.5) [⟨0, 4⟩] = .RECEDING ∧
    determineFloodStatus 0 (some 2.5) [] = .CLEAR := by
  constructor
  · refine (((C3_determineFloodStatus_threshold_ladder 0 [⟨0, 4⟩]).2 3.5).2.2.1
      (by norm_num [THRESHOLDS.FLOOD_WARNING])).mpr ?_
    exact ⟨⟨⟨0, 4⟩, by simp, by norm_num [THRESHOLDS.ROAD_FLOOD],
      by norm_num [sevenDaysMs]⟩, by norm_num [THRESHOLDS.NORMAL_HIGH]⟩
  · exact ((C3_determineFloodStatus_threshold_ladder 0 []).2 2.5).2.2.2
      (by norm_num [THRESHOLDS.FLOOD_WARNING]) (Or.inl (by simp))

/-- C4: `determineTrend` returns `UNKNOWN` for fewer than 4 readings;
otherwise, with `diff` the last minus the first value of the trailing-8
window, it is `STEADY` iff `|diff| < 0.02` (strict), `RISING` iff
`diff > 0` and not steady, and `FALLING` otherwise. -/
theorem C4_determineTrend_characterization (readings : List EAReading) :
    (readings.length < 4 → determineTrend readings = .UNKNOWN) ∧
    (4 ≤ readings.length →
      (determineTrend readings = .STEADY ↔
        |((takeLast 8 readings).getLastD defaultReading).value -
          ((takeLast 8 readings).headD defaultReading).value| < 0.02) ∧
      (determineTrend readings = .RISING ↔
        0 < ((takeLast 8 readings).getLastD defaultReading).value -
          ((takeLast 8 readings).headD defaultReading).value ∧
        ¬ |((takeLast 8 readings).getLastD defaultReading).value -
          ((takeLast 8 readings).headD defaultReading).value| < 0.02) ∧
      (determineTrend readings = .FALLING ↔
        ((takeLast 8 readings).getLastD defaultReading).value -
          ((takeLast 8 readings).headD defaultReading).value ≤ 0 ∧
        ¬ |((takeLast 8 readings).getLastD defaultReading).value -
          ((takeLast 8 readings).headD defaultReading).value| < 0.02)) := by
  constructor
  · intro h
    simp only [determineTrend]
    rw [if_pos h]
  · intro h4
    have hnot4 : ¬ readings.length < 4 := not_lt.mpr h4
    have hlen2 : ¬ (takeLast 8 readings).length < 2 := by
      simp only [takeLast, List.length_drop]
      omega
    simp only [determineTrend]
    rw [if_neg hnot4, if_neg hlen2]
    by_cases hst :
        |((takeLast 8 readings).getLastD defaultReading).value -
          ((takeLast 8 readings).headD defaultReading).value| < 0.02
    · rw [if_pos hst]
      refine ⟨iff_of_true rfl hst, ?_, ?_⟩
      · exact iff_of_false (fun hx => TrendDirection.noConfusion hx)
          fun hr => hr.2 hst
      · exact iff_of_false (fun hx => TrendDirection.noConfusion hx)
          fun hr => hr.2 hst
    · rw [if_neg hst]
      by_cases hpos :
          0 < ((takeLast 8 readings).getLastD defaultReading).value -
            ((takeLast 8 readings).headD defaultReading).value
      · rw [if_pos hpos]
        refine ⟨iff_of_false (fun hx => TrendDirection.noConfusion hx)
          fun hr => hst hr, iff_of_true rfl ⟨hpos, hst⟩, ?_⟩
        exact iff_of_false (fun hx => TrendDirection.noConfusion hx)
          fun hr => absurd hpos (not_lt.mpr hr.1)
      · rw [if_neg hpos]
        refine ⟨iff_of_false (fun hx => TrendDirection.noConfusion hx)
          fun hr => hst hr, iff_of_false (fun hx => TrendDirection.noConfusion hx)
          fun hr => hpos hr.1, iff_of_true rfl ⟨not_lt.mp hpos, hst⟩⟩

/-- C4 witness: four readings whose trailing window rises by 1 m classify
as `RISING`. -/
theorem C4_determineTrend_characterization_witness :
    determineTrend [⟨0, 1⟩, ⟨1, 1⟩, ⟨2, 1⟩, ⟨3, 2⟩] = .RISING := by
  have h := (C4_determineTrend_characterization
    [⟨0, 1⟩, ⟨1, 1⟩, ⟨2, 1⟩, ⟨3, 2⟩]).2 (by norm_num)
  refine h.2.1.mpr ⟨?_, ?_⟩ <;> norm_num [takeLast, defaultReading]

/-- C5: route classification. With at least one returned route, the status
is `ROUTING_THROUGH` iff the first route's length over `DIRECT_DISTANCE_M`
is strictly below `DETOUR_THRESHOLD_MULTIPLIER` and some route point is
strictly within `MIDPOINT_PROXIMITY_M` of the A417 midpoint (i.e. the
minimum point distance is below the bound); otherwise `ROUTING_AROUND`.
With zero returned routes the status is `NO_ROUTE`, never
`ROUTING_AROUND`. -/
theorem C5_route_classification (haversineM : TomTomPoint → LatLng → ℚ)
    (routes : List TomTomRoute) :
    (checkRoute haversineM routes = .NO_ROUTE ↔ routes = []) ∧
    ∀ route rest, routes = route :: rest →
      ((checkRoute haversineM routes = .ROUTING_THROUGH ↔
          route.summary.lengthInMeters / DIRECT_DISTANCE_M <
            DETOUR_THRESHOLD_MULTIPLIER ∧
          ∃ p ∈ route.legs.flatMap (fun leg => leg.points),
            haversineM p A417_MIDPOINT < MIDPOINT_PROXIMITY_M) ∧
        (checkRoute haversineM routes = .ROUTING_AROUND ↔
          ¬(route.summary.lengthInMeters / DIRECT_DISTANCE_M <
              DETOUR_THRESHOLD_MULTIPLIER ∧
            ∃ p ∈ route.legs.flatMap (fun leg => leg.points),
              haversineM p A417_MIDPOINT < MIDPOINT_PROXIMITY_M))) := by
  cases routes with
  | nil =>
    refine ⟨by simp [checkRoute], ?_⟩
    intro route rest h
    exact absurd h (by simp)
  | cons route rest' =>
    have heval : checkRoute haversineM (route :: rest') =
        if route.summary.lengthInMeters / DIRECT_DISTANCE_M <
              DETOUR_THRESHOLD_MULTIPLIER ∧
            findClosestDistance haversineM
              (route.legs.flatMap (fun leg => leg.points)) A417_MIDPOINT <
              (MIDPOINT_PROXIMITY_M : WithTop ℚ) then
          .ROUTING_THROUGH
        else .ROUTING_AROUND := rfl
    have hiff : (route.summary.lengthInMeters / DIRECT_DISTANCE_M <
          DETOUR_THRESHOLD_MULTIPLIER ∧
        findClosestDistance haversineM
          (route.legs.flatMap (fun leg => leg.points)) A417_MIDPOINT <
          (MIDPOINT_PROXIMITY_M : WithTop ℚ)) ↔
        (route.summary.lengthInMeters / DIRECT_DISTANCE_M <
            DETOUR_THRESHOLD_MULTIPLIER ∧
          ∃ p ∈ route.legs.flatMap (fun leg => leg.points),
            haversineM p A417_MIDPOINT < MIDPOINT_PROXIMITY_M) :=
      and_congr_right fun _ =>
        findClosestDistance_lt_iff haversineM A417_MIDPOINT MIDPOINT_PROXIMITY_M _
    constructor
    · refine iff_of_false ?_ (by simp)
      rw [heval]
      split_ifs <;> simp
    · intro route0 rest0 heq
      cases heq
      constructor
      · rw [heval]
        by_cases hc : route.summary.lengthInMeters / DIRECT_DISTANCE_M <
              DETOUR_THRESHOLD_MULTIPLIER ∧
            findClosestDistance haversineM
              (route.legs.flatMap (fun leg => leg.points)) A417_MIDPOINT <
              (MIDPOINT_PROXIMITY_M : WithTop ℚ)
        · rw [if_pos hc]
          exact iff_of_true rfl (hiff.mp hc)
        · rw [if_neg hc]
          exact iff_of_false (fun hx => RouteStatus.noConfusion hx)
            fun hr => hc (hiff.mpr hr)
      · rw [heval]
        by_cases hc : route.summary.lengthInMeters / DIRECT_DISTANCE_M <
              DETOUR_THRESHOLD_MULTIPLIER ∧
            findClosestDistance haversineM
              (route.legs.flatMap (fun leg => leg.points)) A417_MIDPOINT <
              (MIDPOINT_PROXIMITY_M : WithTop ℚ)
        · rw [if_pos hc]
          exact iff_of_false (fun hx => RouteStatus.noConfusion hx)
            fun hn => hn (hiff.mp hc)
        · rw [if_neg hc]
          exact iff_of_true rfl fun hr => hc (hiff.mpr hr)

/-- C5 witness: a direct-length route with one point on the midpoint
classifies as `ROUTING_THROUGH`. -/
theorem C5_route_classification_witness :
    checkRoute (fun _ _ => 0) [⟨⟨1800, 60, 0⟩, [⟨[⟨0, 0⟩]⟩]⟩] = .ROUTING_THROUGH := by
  have h := (C5_route_classification (fun _ _ => 0)
    [⟨⟨1800, 60, 0⟩, [⟨[⟨0, 0⟩]⟩]⟩]).2 ⟨⟨1800, 60, 0⟩, [⟨[⟨0, 0⟩]⟩]⟩ [] rfl
  refine h.1.mpr ⟨?_, ⟨0, 0⟩, ?_, ?_⟩
  · norm_num [DIRECT_DISTANCE_M, DETOUR_THRESHOLD_MULTIPLIER]
  · simp
  · norm_num [MIDPOINT_PROXIMITY_M]

/-- C6 counterexample: the claim says an empty point sequence is rejected
with an InvalidInput error and never classified. In the code
`findClosestDistance` returns `Infinity` (here `⊤`) on an empty list, and
`checkRoute` silently classifies a direct-length route with zero points as
`ROUTING_AROUND`. -/
theorem C6_zero_point_route_counterexample :
    findClosestDistance (fun _ _ => 0) [] A417_MIDPOINT = ⊤ ∧
    checkRoute (fun _ _ => 0) [⟨⟨1800, 60, 0⟩, []⟩] = .ROUTING_AROUND := by
  refine ⟨rfl, ?_⟩
  show (if (1800 : ℚ) / DIRECT_DISTANCE_M < DETOUR_THRESHOLD_MULTIPLIER ∧
      findClosestDistance (fun _ _ => 0) [] A417_MIDPOINT <
        (MIDPOINT_PROXIMITY_M : WithTop ℚ) then
    RouteStatus.ROUTING_THROUGH else .ROUTING_AROUND) = .ROUTING_AROUND
  rw [if_neg]
  rintro ⟨-, h⟩
  exact not_top_lt h

/-- C6 (amended): `findClosestDistance` returns `Infinity` (`⊤`) for an
empty point sequence instead of failing, so a returned route with zero
points always fails the midpoint-proximity test and is classified
`ROUTING_AROUND` — it is not rejected as invalid input. -/
theorem C6_empty_points_classified_routing_around
    (haversineM : TomTomPoint → LatLng → ℚ) (target : LatLng)
    (route : TomTomRoute) (rest : List TomTomRoute)
    (h : route.legs.flatMap (fun leg => leg.points) = []) :
    findClosestDistance haversineM [] target = ⊤ ∧
    checkRoute haversineM (route :: rest) = .ROUTING_AROUND := by
  refine ⟨rfl, ?_⟩
  have heval : checkRoute haversineM (route :: rest) =
      if route.summary.lengthInMeters / DIRECT_DISTANCE_M <
            DETOUR_THRESHOLD_MULTIPLIER ∧
          findClosestDistance haversineM
            (route.legs.flatMap (fun leg => leg.points)) A417_MIDPOINT <
            (MIDPOINT_PROXIMITY_M : WithTop ℚ) then
        .ROUTING_THROUGH
      else .ROUTING_AROUND := rfl
  rw [heval, h]
  rw [if_neg]
  rintro ⟨-, hlt⟩
  exact not_top_lt hlt

/-- C6 witness: the amended theorem applied to a concrete zero-point
route. -/
theorem C6_empty_points_classified_routing_around_witness :
    checkRoute (fun _ _ => 1) [⟨⟨5000, 60, 0⟩, []⟩] = .ROUTING_AROUND :=
  (C6_empty_points_classified_routing_around (fun _ _ => 1) A417_MIDPOINT
    ⟨⟨5000, 60, 0⟩, []⟩ [] rfl).2

/-- C7: per-poll traffic classification. For a matched poll that has speed
annotations, the status is `HAS_LIVE_DATA` iff at least one congestion tag
is not `"unknown"` (else `NO_LIVE_DATA`), and the average speed is the
mean over exactly the indexed speeds whose congestion tag is not
`"unknown"` (`none` when there are no such segments) — segments tagged
`"unknown"` contribute nothing. -/
theorem C7_per_poll_traffic_classification (raw : MapboxMatchResponse)
    (matching : MapboxMatching) (rest : List MapboxMatching)
    (hcode : raw.code = "Ok") (hm : raw.matchings = matching :: rest)
    (hs : collectSpeeds matching.legs ≠ []) :
    ((fetchMapbox raw).status = .HAS_LIVE_DATA ↔
      ∃ c ∈ collectCongestion matching.legs, c ≠ "unknown") ∧
    ((fetchMapbox raw).status = .NO_LIVE_DATA ↔
      ∀ c ∈ collectCongestion matching.legs, c = "unknown") ∧
    (fetchMapbox raw).avgSpeedMph =
      (let live := (List.enumFrom 0 (collectSpeeds matching.legs)).filterMap fun p =>
        if (collectCongestion matching.legs).getD p.1 "unknown" ≠ "unknown" then
          some (mpsToMph p.2)
        else none
       if live = [] then none else some (live.sum / (live.length : ℚ))) := by
  have heval : fetchMapbox raw =
      ⟨(if (collectCongestion matching.legs).any (fun c => c != "unknown") then
          .HAS_LIVE_DATA else .NO_LIVE_DATA),
        (collectCongestion matching.legs).any (fun c => c != "unknown"),
        (if 0 < (liveSpeedsOf (collectSpeeds matching.legs) 0
              (collectCongestion matching.legs)).length then
          some ((liveSpeedsOf (collectSpeeds matching.legs) 0
              (collectCongestion matching.legs)).sum /
            ((liveSpeedsOf (collectSpeeds matching.legs) 0
              (collectCongestion matching.legs)).length : ℚ))
        else none),
        some matching.confidence, some matching.geometry,
        some (segmentsOf (collectSpeeds matching.legs) 0
          (collectCongestion matching.legs) (collectDistances matching.legs))⟩ := by
    unfold fetchMapbox
    rw [hm, if_neg (show ¬(raw.code ≠ "Ok") from fun h => h hcode)]
    exact if_neg hs
  have hany : ((collectCongestion matching.legs).any fun c => c != "unknown") = true ↔
      ∃ c ∈ collectCongestion matching.legs, c ≠ "unknown" := by
    simp [List.any_eq_true]
  refine ⟨?_, ?_, ?_⟩
  · rw [heval]
    by_cases hb : ((collectCongestion matching.legs).any fun c => c != "unknown") = true
    · rw [if_pos hb]
      exact iff_of_true rfl (hany.mp hb)
    · rw [if_neg hb]
      exact iff_of_false (by simp) fun he => hb (hany.mpr he)
  · rw [heval]
    by_cases hb : ((collectCongestion matching.legs).any fun c => c != "unknown") = true
    · rw [if_pos hb]
      refine iff_of_false (by simp) fun hall => ?_
      obtain ⟨c, hc, hne⟩ := hany.mp hb
      exact hne (hall c hc)
    · rw [if_neg hb]
      refine iff_of_true rfl fun c hc => ?_
      by_contra hne
      exact hb (hany.mpr ⟨c, hc, hne⟩)
  · rw [heval]
    simp only [liveSpeedsOf_eq_filterMap]
    generalize (List.enumFrom 0 (collectSpeeds matching.legs)).filterMap
      (fun p => if (collectCongestion matching.legs).getD p.1 "unknown" ≠ "unknown" then
        some (mpsToMph p.2) else none) = L
    by_cases hl : L = []
    · subst hl
      simp
    · rw [if_pos (List.length_pos.mpr hl), if_neg hl]

/-- C7 witness: one leg with a single annotated segment (10 m/s, tag
`"low"`) classifies as `HAS_LIVE_DATA`. -/
theorem C7_per_poll_traffic_classification_witness :
    (fetchMapbox ⟨"Ok", [⟨100, 10, 0.9, "g",
        [⟨100, 10, some ⟨some [10], some ["low"], some [50]⟩⟩]⟩]⟩).status =
      .HAS_LIVE_DATA := by
  refine (C7_per_poll_traffic_classification _ _ [] rfl rfl (by decide)).1.mpr ?_
  exact ⟨"low", by decide, by decide⟩

/-- C8 counterexample: the claim says `averageSpeed` is the unweighted mean
of the per-poll average speeds of the `HAS_LIVE_DATA` polls and that
`mostRecentLiveSpeed`/`mostRecentLiveTimestamp` come from the newest live
poll. In the code the average is rounded to one decimal: three live polls
at 20, 20.1 and 20.1 mph yield 20.1, not the true mean 301/15; and the
newest-live selection skips a live poll whose stored speed is null: with
the newest live row "t3" carrying no speed, the reported timestamp is
"t2". -/
theorem C8_window_aggregation_counterexample :
    (aggregateReadings none
        [⟨"t3", "HAS_LIVE_DATA", 1, some 20, none, none⟩,
         ⟨"t2", "HAS_LIVE_DATA", 1, some 20.1, none, none⟩,
         ⟨"t1", "HAS_LIVE_DATA", 1, some 20.1, none, none⟩]).averageSpeedMph =
      some 20.1 ∧
    (20.1 : ℚ) ≠ (20 + 20.1 + 20.1) / 3 ∧
    (aggregateReadings none
        [⟨"t3", "HAS_LIVE_DATA", 1, none, none, none⟩,
         ⟨"t2", "HAS_LIVE_DATA", 1, some 20, none, none⟩]).mostRecentLiveTimestamp =
      some "t2" := by
  refine ⟨?_, by norm_num, ?_⟩
  · norm_num [aggregateReadings, jsRound, List.filter, List.filterMap, List.find?]
  · norm_num [aggregateReadings, List.filter, List.filterMap, List.find?]

/-- C8 (amended): window aggregation. The status is `LIKELY_OPEN` iff some
row in the window has live data, `NO_LIVE_DATA` iff the window is
non-empty with no live row, and `INSUFFICIENT_DATA` iff the window is
empty; `averageSpeedMph` is the unweighted mean of the non-null per-poll
average speeds of the live rows, rounded to one decimal (`none` if there
is no such row); and `mostRecentLiveSpeedMph`/`mostRecentLiveTimestamp`
come from the newest (first, in the descending-ordered window) live row
that carries a non-null average speed. -/
theorem C8_window_aggregation (since : Option String) (rows : List ReadingRow) :
    ((aggregateReadings since rows).status = .LIKELY_OPEN ↔
      ∃ r ∈ rows, r.has_live_data = 1) ∧
    ((aggregateReadings since rows).status = .NO_LIVE_DATA ↔
      rows ≠ [] ∧ ∀ r ∈ rows, r.has_live_data ≠ 1) ∧
    ((aggregateReadings since rows).status = .INSUFFICIENT_DATA ↔ rows = []) ∧
    (aggregateReadings since rows).averageSpeedMph =
      (let live := (rows.filter fun r =>
          decide (r.has_live_data = 1) && r.avg_speed_mph.isSome).filterMap
          fun r => r.avg_speed_mph
       if live = [] then none
       else some (jsRound (live.sum / (live.length : ℚ) * 10) / 10)) ∧
    (aggregateReadings since rows).mostRecentLiveSpeedMph =
      ((rows.filter fun r =>
          decide (r.has_live_data = 1) && r.avg_speed_mph.isSome).head?).bind
        (fun r => r.avg_speed_mph) ∧
    (aggregateReadings since rows).mostRecentLiveTimestamp =
      ((rows.filter fun r =>
          decide (r.has_live_data = 1) && r.avg_speed_mph.isSome).head?).map
        (fun r => r.timestamp) := by
  by_cases hrow : rows.length = 0
  · have h0 : rows = [] := List.length_eq_zero.mp hrow
    subst h0
    refine ⟨?_, ?_, ?_, ?_, ?_, ?_⟩ <;> simp [aggregateReadings]
  · have hne : rows ≠ [] := fun h => hrow (by simp [h])
    have hff : ((rows.filter fun r => decide (r.has_live_data = 1)).filter fun r =>
        r.avg_speed_mph.isSome) =
        rows.filter fun r => decide (r.has_live_data = 1) && r.avg_speed_mph.isSome := by
      rw [List.filter_filter]
      exact List.filter_congr fun x _ => Bool.and_comm _ _
    have hexists : 0 < (rows.filter fun r => decide (r.has_live_data = 1)).length ↔
        ∃ r ∈ rows, r.has_live_data = 1 := by
      rw [List.length_pos]
      constructor
      · intro h
        obtain ⟨r, hr⟩ := List.exists_mem_of_ne_nil _ h
        have hm := List.mem_filter.mp hr
        exact ⟨r, hm.1, of_decide_eq_true hm.2⟩
      · rintro ⟨r, hr, h1⟩ hnil
        have : r ∈ rows.filter fun r => decide (r.has_live_data = 1) :=
          List.mem_filter.mpr ⟨hr, decide_eq_true h1⟩
        simp [hnil] at this
    have hstat : (aggregateReadings since rows).status =
        (if 0 < (rows.filter fun r => decide (r.has_live_data = 1)).length then
          AggregatedStatus.LIKELY_OPEN else .NO_LIVE_DATA) := by
      simp only [aggregateReadings]
      rw [if_neg hrow]
    refine ⟨?_, ?_, ?_, ?_, ?_, ?_⟩
    · rw [hstat]
      by_cases hc : 0 < (rows.filter fun r => decide (r.has_live_data = 1)).length
      · rw [if_pos hc]
        exact iff_of_true rfl (hexists.mp hc)
      · rw [if_neg hc]
        exact iff_of_false (by simp) fun he => hc (hexists.mpr he)
    · rw [hstat]
      by_cases hc : 0 < (rows.filter fun r => decide (r.has_live_data = 1)).length
      · rw [if_pos hc]
        refine iff_of_false (by simp) fun hall => ?_
        obtain ⟨r, hr, h1⟩ := hexists.mp hc
        exact hall.2 r hr h1
      · rw [if_neg hc]
        exact iff_of_true rfl ⟨hne, fun r hr h1 => hc (hexists.mpr ⟨r, hr, h1⟩)⟩
    · refine iff_of_false ?_ hne
      rw [hstat]
      split_ifs <;> simp
    · have havg : (aggregateReadings since rows).averageSpeedMph =
          (if 0 < (((rows.filter fun r => decide (r.has_live_data = 1)).filter fun r =>
                r.avg_speed_mph.isSome).filterMap fun r => r.avg_speed_mph).length then
            some (jsRound ((((rows.filter fun r => decide (r.has_live_data = 1)).filter
                  fun r => r.avg_speed_mph.isSome).filterMap
                  fun r => r.avg_speed_mph).sum /
                ((((rows.filter fun r => decide (r.has_live_data = 1)).filter
                  fun r => r.avg_speed_mph.isSome).filterMap
                  fun r => r.avg_speed_mph).length : ℚ) * 10) / 10)
          else none) := by
        simp only [aggregateReadings]
        rw [if_neg hrow]
      rw [havg, hff]
      simp only []
      generalize ((rows.filter fun r =>
          decide (r.has_live_data = 1) && r.avg_speed_mph.isSome).filterMap
          fun r => r.avg_speed_mph) = L
      by_cases hl : L = []
      · subst hl
        simp
      · rw [if_pos (List.length_pos.mpr hl), if_neg hl]
    · have hmr : (aggregateReadings since rows).mostRecentLiveSpeedMph =
          (match (rows.filter fun r => decide (r.has_live_data = 1)).find? fun r =>
              r.avg_speed_mph.isSome with
            | some r => r.avg_speed_mph
            | none => none) := by
        simp only [aggregateReadings]
        rw [if_neg hrow]
      rw [hmr, find?_filter_eq_head?]
      cases (rows.filter fun r =>
          decide (r.has_live_data = 1) && r.avg_speed_mph.isSome).head? with
      | none => rfl
      | some r => rfl
    · have hmt : (aggregateReadings since rows).mostRecentLiveTimestamp =
          ((rows.filter fun r => decide (r.has_live_data = 1)).find? fun r =>
            r.avg_speed_mph.isSome).map fun r => r.timestamp := by
        simp only [aggregateReadings]
        rw [if_neg hrow]
      rw [hmt, find?_filter_eq_head?]

/-- C9 counterexample: the claim says every classifier depends only on its
arguments, with no ambient input such as the wall clock. But
`determineFloodStatus` reads `Date.now()`: with identical arguments
(level 3.5 m and one 4 m reading at epoch 0), a call one day after the
reading classifies `RECEDING` while a call eight days after classifies
`CLEAR`. -/
theorem C9_wall_clock_changes_flood_status :
    determineFloodStatusRun ⟨86400000⟩ (some 3.5) [⟨0, 4⟩] ≠
      determineFloodStatusRun ⟨691200000⟩ (some 3.5) [⟨0, 4⟩] := by
  have h1 : determineFloodStatusRun ⟨86400000⟩ (some 3.5) [⟨0, 4⟩] = .RECEDING := by
    unfold determineFloodStatusRun determineFloodStatus
    norm_num [THRESHOLDS.ROAD_FLOOD, THRESHOLDS.FLOOD_WARNING, THRESHOLDS.NORMAL_HIGH,
      sevenDaysMs]
  have h2 : determineFloodStatusRun ⟨691200000⟩ (some 3.5) [⟨0, 4⟩] = .CLEAR := by
    unfold determineFloodStatusRun determineFloodStatus
    norm_num [THRESHOLDS.ROAD_FLOOD, THRESHOLDS.FLOOD_WARNING, THRESHOLDS.NORMAL_HIGH,
      sevenDaysMs]
  rw [h1, h2]
  exact fun hx => FloodStatus.noConfusion hx

/-- C9 (amended): `determineTrend`, `findTimeWaterDroppedBelowFlood` and
`assessRoadStatus` are deterministic in their arguments — they read no
ambient state, so running them in any two ambient worlds gives identical
results. `determineFloodStatus` also reads the wall clock, but depends on
it only through which readings fall inside the trailing-7-day window: two
call times that classify every reading identically as inside/outside the
window give identical results. -/
theorem C9_determinism_modulo_recency_window (w w' : Ambient) :
    (∀ readings, determineTrendRun w readings = determineTrendRun w' readings) ∧
    (∀ readings, findTimeWaterDroppedBelowFloodRun w readings =
      findTimeWaterDroppedBelowFloodRun w' readings) ∧
    (∀ floodStatus routeStatus trafficData trafficSinceFlood,
      assessRoadStatusRun w floodStatus routeStatus trafficData trafficSinceFlood =
        assessRoadStatusRun w' floodStatus routeStatus trafficData trafficSinceFlood) ∧
    (∀ currentLevel readings,
      (∀ r ∈ readings,
        (w.now - sevenDaysMs < r.dateTime ↔ w'.now - sevenDaysMs < r.dateTime)) →
      determineFloodStatusRun w currentLevel readings =
        determineFloodStatusRun w' currentLevel readings) := by
  refine ⟨fun _ => rfl, fun _ => rfl, fun _ _ _ _ => rfl, ?_⟩
  intro currentLevel readings h
  unfold determineFloodStatusRun determineFloodStatus
  match currentLevel with
  | none => rfl
  | some level =>
    simp only
    have hany :
        (readings.any fun r =>
            decide (THRESHOLDS.ROAD_FLOOD ≤ r.value) &&
              decide (w.now - sevenDaysMs < r.dateTime)) =
          readings.any fun r =>
            decide (THRESHOLDS.ROAD_FLOOD ≤ r.value) &&
              decide (w'.now - sevenDaysMs < r.dateTime) := by
      refine any_congr_mem fun r hr => ?_
      rw [decide_eq_decide.mpr (h r hr)]
    rw [hany]

/-- C9 witness: the amended theorem applied at two concrete worlds (call
times 0 ms and 1000 ms) that agree on the window membership of the single
reading. -/
theorem C9_determinism_modulo_recency_window_witness :
    determineFloodStatusRun ⟨0⟩ (some 3.5) [⟨0, 4⟩] =
      determineFloodStatusRun ⟨1000⟩ (some 3.5) [⟨0, 4⟩] :=
  (C9_determinism_modulo_recency_window ⟨0⟩ ⟨1000⟩).2.2.2 (some 3.5) [⟨0, 4⟩]
    (by decide)

end Flooded
